import Mathlib

/-!
Shallow embedding of `Source/BlahtexCore/blahtexcxx.hpp`, the `blahtexwrapper`
namespace: value-copied error envelopes (`Exception`, `StandardException`),
the tagged unions `AnyException` and `Result<T>`, and the `Interface` facade
whose four operations each wrap one call into the opaque engine
`blahtex::Interface` in a try/catch block with two catch clauses written in
a fixed order. The engine itself (declared in `Interface.h` / `Misc.h`,
which are not among the sources) is modelled from the specification as an
abstract state machine that either returns a value or raises one of the two
contracted failure kinds.
-/

namespace blahtexwrapper

/-- Modelled from the spec: the engine structured failure type
`blahtex::Exception` (declared in `Misc.h`, which is missing from the
sources). It carries a machine-readable `code` and an ordered list of
message-formatting `args`, read through `GetCode()` / `GetArgs()`.
`derivesStd` records whether the raised object dynamic type would also match
a catch clause for the generic runtime-failure base type (`std::exception`),
so that questions about catch-clause order can be stated. -/
structure BlahtexException where
  code : String
  args : List String
  derivesStd : Bool
  deriving DecidableEq

/-- `blahtex::Exception::GetCode()`. -/
def BlahtexException.GetCode (e : BlahtexException) : String := e.code

/-- `blahtex::Exception::GetArgs()`. -/
def BlahtexException.GetArgs (e : BlahtexException) : List String := e.args

/-- Modelled from the spec: a generic runtime failure (`std::exception`),
carrying only the free-text description returned by `what()` (a single-byte
character pointer). -/
structure StdException where
  what : String
  deriving DecidableEq

/-- A failure raised by an engine call. Modelled from the spec, which
contracts each engine operation as capable of raising a structured domain
error or an unstructured runtime error, and nothing else. -/
inductive Raised where
  | blahtexExc (e : BlahtexException)
  | stdExc (s : StdException)
  deriving DecidableEq

/-- Whether a raised failure matches the first catch clause of each facade
operation, `catch (const blahtex::Exception& e)`. -/
def Raised.matchesBlahtexHandler : Raised → Bool
  | .blahtexExc _ => true
  | .stdExc _ => false

/-- Whether a raised failure matches the second catch clause,
`catch (const std::exception& e)`: every generic runtime failure does, and a
structured engine exception does exactly when its dynamic type also derives
from the generic base type. -/
def Raised.matchesStdHandler : Raised → Bool
  | .blahtexExc e => e.derivesStd
  | .stdExc _ => true

/-- `blahtexwrapper::Exception`: value-copied envelope of a structured engine
failure (fields `code : std::wstring`, `args : std::vector<std::wstring>`). -/
structure Exception where
  code : String
  args : List String
  deriving DecidableEq

/-- The constructor `Exception(const blahtex::Exception& exception)`, which
initializes `code` from `exception.GetCode()` and `args` from
`exception.GetArgs()`. -/
def Exception.ofBlahtexExc (e : BlahtexException) : Exception :=
  ⟨e.GetCode, e.GetArgs⟩

/-- `blahtexwrapper::Exception::GetCode()`. -/
def Exception.GetCode (e : Exception) : String := e.code

/-- `blahtexwrapper::Exception::GetArgs()`. -/
def Exception.GetArgs (e : Exception) : List String := e.args

/-- `blahtexwrapper::StandardException`: envelope of a generic failure. Note
that the source declares the field as a single-byte `std::string message`. -/
structure StandardException where
  message : String
  deriving DecidableEq

/-- The constructor `StandardException(const std::exception& e)`, which
initializes `message` from `e.what()`. -/
def StandardException.ofStdExc (s : StdException) : StandardException :=
  ⟨s.what⟩

/-- `StandardException::GetMessage()`. -/
def StandardException.GetMessage (s : StandardException) : String := s.message

/-- `blahtexwrapper::AnyException`: the field
`std::variant<Exception, StandardException> error`, with one converting
constructor per alternative. -/
inductive AnyException where
  | ofBlahtex (e : Exception)
  | ofStandard (s : StandardException)
  deriving DecidableEq

/-- `AnyException::isBlahtexException()`:
`std::holds_alternative<Exception>(error)`. -/
def AnyException.isBlahtexException : AnyException → Bool
  | .ofBlahtex _ => true
  | .ofStandard _ => false

/-- `AnyException::isStandardException()`:
`std::holds_alternative<StandardException>(error)`. -/
def AnyException.isStandardException : AnyException → Bool
  | .ofBlahtex _ => false
  | .ofStandard _ => true

/-- `AnyException::blahtexException()`: `std::get<Exception>(error)`.
`none` models the `std::bad_variant_access` that `std::get` raises when the
variant holds the other alternative: no `Exception` value is produced. -/
def AnyException.blahtexException : AnyException → Option Exception
  | .ofBlahtex e => some e
  | .ofStandard _ => none

/-- `AnyException::standardException()`: `std::get<StandardException>(error)`,
with `none` again modelling the raised `std::bad_variant_access`. -/
def AnyException.standardException : AnyException → Option StandardException
  | .ofBlahtex _ => none
  | .ofStandard s => some s

/-- `blahtexwrapper::Result<T>`: the field
`std::variant<T, AnyException> storage`. -/
inductive Result (T : Type) where
  | ofValue (v : T)
  | ofAny (e : AnyException)
  deriving DecidableEq

/-- The constructor `Result(T value)`. -/
def Result.mkValue {T : Type} (v : T) : Result T := .ofValue v

/-- The constructor `Result(Exception exception)`, which stores
`AnyException(exception)`. -/
def Result.mkException {T : Type} (e : Exception) : Result T :=
  .ofAny (.ofBlahtex e)

/-- The constructor `Result(StandardException exception)`, which stores
`AnyException(exception)`. -/
def Result.mkStandard {T : Type} (s : StandardException) : Result T :=
  .ofAny (.ofStandard s)

/-- `Result::isOK()`: `std::holds_alternative<T>(storage)`. -/
def Result.isOK {T : Type} : Result T → Bool
  | .ofValue _ => true
  | .ofAny _ => false

/-- `Result::isException()`: `std::holds_alternative<AnyException>(storage)`. -/
def Result.isException {T : Type} : Result T → Bool
  | .ofValue _ => false
  | .ofAny _ => true

/-- `Result::value()`: `std::get<T>(storage)`. `none` models the
`std::bad_variant_access` raised when the variant holds an `AnyException`:
no `T` value is produced. -/
def Result.value {T : Type} : Result T → Option T
  | .ofValue v => some v
  | .ofAny _ => none

/-- `Result::exception()`: `std::get<AnyException>(storage)`, with `none`
again modelling the raised `std::bad_variant_access`. -/
def Result.exception {T : Type} : Result T → Option AnyException
  | .ofValue _ => none
  | .ofAny e => some e

/-- Outcome of one call into the opaque engine: the call returns a value or
raises a failure. -/
inductive EngineOutcome (α : Type) where
  | ok (v : α)
  | raise (r : Raised)
  deriving DecidableEq

/-- Modelled from the spec: the opaque conversion engine `blahtex::Interface`
(its declaration `Interface.h` and implementation are missing from the
sources). The spec contracts one input-processing operation that mutates the
engine internal parsed state and three read-only extraction operations, each
capable of raising a structured or generic failure, so every call is a
deterministic function of the engine state, and the input-processing call is
a state transformer. `init` is the state produced by default construction
`blahtex::Interface()`. Read-only-ness of the extraction calls is stated
separately as `ExtractionsReadOnly`. -/
structure EngineSpec (σ : Type) where
  init : σ
  processInputCall : String → Bool → σ → EngineOutcome Unit × σ
  getMathmlCall : σ → EngineOutcome String × σ
  getPurifiedTexCall : σ → EngineOutcome String × σ
  getPurifiedTexOnlyCall : σ → EngineOutcome String × σ

/-- Modelled from the spec: the three extraction operations of the engine are
read-only, so an extraction call leaves the engine state unchanged. -/
def EngineSpec.ExtractionsReadOnly {σ : Type} (eng : EngineSpec σ) : Prop :=
  (∀ s, (eng.getMathmlCall s).2 = s) ∧
  (∀ s, (eng.getPurifiedTexCall s).2 = s) ∧
  (∀ s, (eng.getPurifiedTexOnlyCall s).2 = s)

/-- Modelled from the spec: on a freshly constructed engine, before any input
has been processed, an extraction call does not succeed — the engine reports
a failure (of either kind) rather than returning a value. -/
def EngineSpec.FreshGetMathmlRaises {σ : Type} (eng : EngineSpec σ) : Prop :=
  ∃ r, (eng.getMathmlCall eng.init).1 = EngineOutcome.raise r

/-- Which catch clause of a facade operation handles a raised failure. Every
one of the four operations writes the same two clauses in the same order:
`catch (const blahtex::Exception& e)` first and
`catch (const std::exception& e)` second. -/
inductive Caught where
  | byBlahtexClause (e : BlahtexException)
  | byStdClause (s : StdException)
  deriving DecidableEq

/-- Catch-clause dispatch: the host language tries the clauses in the order
they are written and the first clause whose type matches the raised object
handles it; `none` means neither clause matches and the exception propagates
out of the operation. -/
def dispatchCatch (r : Raised) : Option Caught :=
  if r.matchesBlahtexHandler = true then
    match r with
    | .blahtexExc e => some (Caught.byBlahtexClause e)
    | .stdExc _ => none
  else if r.matchesStdHandler = true then
    match r with
    | .stdExc s => some (Caught.byStdClause s)
    | .blahtexExc _ => none
  else
    none

/-- What one invocation of a facade operation does at its boundary: either it
returns a `Result`, or a raised exception escapes past the operation. -/
inductive OpResult (T : Type) where
  | returned (res : Result T)
  | escaped (r : Raised)
  deriving DecidableEq

/-- Whether the invocation let a raised exception escape the operation
boundary instead of returning a `Result`. -/
def OpResult.escapes {T : Type} : OpResult T → Bool
  | .returned _ => false
  | .escaped _ => true

/-- Whether the invocation returned a `Result` holding the error
alternative. -/
def OpResult.returnsErr {T : Type} : OpResult T → Bool
  | .returned (.ofAny _) => true
  | .returned (.ofValue _) => false
  | .escaped _ => false

/-- Whether the invocation returned a `Result` holding the success
alternative. -/
def OpResult.returnsOk {T : Type} : OpResult T → Bool
  | .returned (.ofValue _) => true
  | .returned (.ofAny _) => false
  | .escaped _ => false

/-- The try/catch body that each of the four facade operations writes out
verbatim: on a normal return of the engine call, wrap the value with the
`Result` success constructor; on a raised failure, let the two catch clauses
(in their written order) convert it, the first building
`Result(Exception(e))` and the second `Result(StandardException(e))`; a
failure matching neither clause would propagate out of the operation. -/
def guardResult {T : Type} (mkOk : T → Result T) : EngineOutcome T → OpResult T
  | .ok v => OpResult.returned (mkOk v)
  | .raise r =>
    match dispatchCatch r with
    | some (Caught.byBlahtexClause e) =>
        OpResult.returned (Result.mkException (Exception.ofBlahtexExc e))
    | some (Caught.byStdClause s) =>
        OpResult.returned (Result.mkStandard (StandardException.ofStdExc s))
    | none => OpResult.escaped r

/-- `blahtexwrapper::Interface`: exclusively owns one engine instance (the
public field `blahtex::Interface interface`). `eng` is the opaque engine
code and `interface` the current state of the owned instance. -/
structure Interface (σ : Type) where
  eng : EngineSpec σ
  interface : σ

/-- The constructor `Interface()`, which default-constructs the owned engine
instance. -/
def Interface.fresh {σ : Type} (eng : EngineSpec σ) : Interface σ :=
  ⟨eng, eng.init⟩

/-- `Interface::ProcessInput(input, displayStyle)`: runs
`interface.ProcessInput(input, displayStyle)` in a `try` block and returns
`Result<std::monostate>(std::monostate())` on success; a raised failure is
converted by the two catch clauses. The engine state mutation performed by
the call is kept in either case. -/
def Interface.ProcessInput {σ : Type} (self : Interface σ) (input : String)
    (displayStyle : Bool) : OpResult Unit × Interface σ :=
  let call := self.eng.processInputCall input displayStyle self.interface
  (guardResult (fun _ => Result.mkValue ()) call.1, ⟨self.eng, call.2⟩)

/-- `Interface::GetMathml()`: returns
`Result<std::wstring>(interface.GetMathml())` from a `try` block, with the
same two catch clauses in the same order as `ProcessInput`. -/
def Interface.GetMathml {σ : Type} (self : Interface σ) :
    OpResult String × Interface σ :=
  let call := self.eng.getMathmlCall self.interface
  (guardResult (fun v => Result.mkValue v) call.1, ⟨self.eng, call.2⟩)

/-- `Interface::GetPurifiedTex()`: same guarded shape around
`interface.GetPurifiedTex()`. -/
def Interface.GetPurifiedTex {σ : Type} (self : Interface σ) :
    OpResult String × Interface σ :=
  let call := self.eng.getPurifiedTexCall self.interface
  (guardResult (fun v => Result.mkValue v) call.1, ⟨self.eng, call.2⟩)

/-- `Interface::GetPurifiedTexOnly()`: same guarded shape around
`interface.GetPurifiedTexOnly()`. -/
def Interface.GetPurifiedTexOnly {σ : Type} (self : Interface σ) :
    OpResult String × Interface σ :=
  let call := self.eng.getPurifiedTexOnlyCall self.interface
  (guardResult (fun v => Result.mkValue v) call.1, ⟨self.eng, call.2⟩)

/-- The character width of a host-language string type. -/
inductive CharWidth where
  | narrow
  | wide
  deriving DecidableEq

/-- The textual values that cross the boundary exposed by `blahtexcxx.hpp`,
one case per distinct declared string-typed datum. -/
inductive BoundaryText where
  | inputText
  | mathmlText
  | purifiedTexText
  | purifiedTexOnlyText
  | domainCode
  | domainArg
  | genericMessage
  deriving DecidableEq

/-- The character width of the string type the source declares for each
boundary text value: `ProcessInput` takes `const std::wstring& input`; the
three extraction operations return `Result<std::wstring>`;
`Exception::code` is `std::wstring` and `Exception::args` is
`std::vector<std::wstring>`; `StandardException::message` is a single-byte
`std::string`. -/
def boundaryTextWidth : BoundaryText → CharWidth
  | .inputText => .wide
  | .mathmlText => .wide
  | .purifiedTexText => .wide
  | .purifiedTexOnlyText => .wide
  | .domainCode => .wide
  | .domainArg => .wide
  | .genericMessage => .narrow

/-- A structured engine exception whose dynamic type would also match the
generic catch clause, used to evaluate the theorems on explicit inputs. -/
def derivedExc : BlahtexException := ⟨"DerivedCode", ["a", "b"], true⟩

/-- A concrete engine instantiation used to evaluate the theorems on explicit
inputs: the state counts successful `ProcessInput` calls; extraction of the
markup fails on the fresh state and succeeds afterwards; the purified-TeX
call succeeds; the restricted purified-TeX call raises a generic failure. -/
def demoEngine : EngineSpec Nat :=
  ⟨0,
   fun input _ s =>
     if input = "x^2" then (EngineOutcome.ok (), s + 1)
     else if input = "oom" then
       (EngineOutcome.raise (Raised.stdExc ⟨"bad_alloc"⟩), s)
     else
       (EngineOutcome.raise (Raised.blahtexExc ⟨"UnknownCommand", [input], false⟩), s),
   fun s =>
     ((if s = 0 then
         EngineOutcome.raise (Raised.blahtexExc ⟨"NoInputProcessed", [], false⟩)
       else EngineOutcome.ok "<mi>x</mi>"), s),
   fun s => (EngineOutcome.ok "x^2", s),
   fun s => (EngineOutcome.raise (Raised.stdExc ⟨"bad_alloc"⟩), s)⟩

/-- A concrete engine instantiation whose every call raises the structured
exception `derivedExc`, used to evaluate the theorems on explicit inputs. -/
def derivedExcEngine : EngineSpec Nat :=
  ⟨0,
   fun _ _ s => (EngineOutcome.raise (Raised.blahtexExc derivedExc), s),
   fun s => (EngineOutcome.raise (Raised.blahtexExc derivedExc), s),
   fun s => (EngineOutcome.raise (Raised.blahtexExc derivedExc), s),
   fun s => (EngineOutcome.raise (Raised.blahtexExc derivedExc), s)⟩

/-! Helper lemmas shared by the claim theorems. -/

/-- A structured engine exception is handled by the first catch clause. -/
theorem dispatchCatch_blahtexExc (e : BlahtexException) :
    dispatchCatch (Raised.blahtexExc e) = some (Caught.byBlahtexClause e) := by
  simp [dispatchCatch, Raised.matchesBlahtexHandler]

/-- A generic runtime failure is handled by the second catch clause. -/
theorem dispatchCatch_stdExc (s : StdException) :
    dispatchCatch (Raised.stdExc s) = some (Caught.byStdClause s) := by
  simp [dispatchCatch, Raised.matchesBlahtexHandler, Raised.matchesStdHandler]

theorem guardResult_ok {T : Type} (mkOk : T → Result T) (v : T) :
    guardResult mkOk (EngineOutcome.ok v) = OpResult.returned (mkOk v) := rfl

theorem guardResult_blahtexExc {T : Type} (mkOk : T → Result T)
    (e : BlahtexException) :
    guardResult mkOk (EngineOutcome.raise (Raised.blahtexExc e)) =
      OpResult.returned (Result.mkException (Exception.ofBlahtexExc e)) := by
  simp [guardResult, dispatchCatch_blahtexExc]

theorem guardResult_stdExc {T : Type} (mkOk : T → Result T) (s : StdException) :
    guardResult mkOk (EngineOutcome.raise (Raised.stdExc s)) =
      OpResult.returned (Result.mkStandard (StandardException.ofStdExc s)) := by
  simp [guardResult, dispatchCatch_stdExc]

theorem guardResult_escapes_false {T : Type} (mkOk : T → Result T)
    (c : EngineOutcome T) : (guardResult mkOk c).escapes = false := by
  cases c with
  | ok v => rfl
  | raise r =>
    cases r with
    | blahtexExc e => rw [guardResult_blahtexExc]; rfl
    | stdExc s => rw [guardResult_stdExc]; rfl

theorem guardResult_raise_err {T : Type} (mkOk : T → Result T) (r : Raised) :
    (guardResult mkOk (EngineOutcome.raise r)).returnsErr = true := by
  cases r with
  | blahtexExc e => rw [guardResult_blahtexExc]; rfl
  | stdExc s => rw [guardResult_stdExc]; rfl

theorem guardResult_raise_not_ok {T : Type} (mkOk : T → Result T) (r : Raised) :
    (guardResult mkOk (EngineOutcome.raise r)).returnsOk = false := by
  cases r with
  | blahtexExc e => rw [guardResult_blahtexExc]; rfl
  | stdExc s => rw [guardResult_stdExc]; rfl

theorem ProcessInput_fst {σ : Type} (self : Interface σ) (input : String)
    (d : Bool) :
    (self.ProcessInput input d).1 =
      guardResult (fun _ => Result.mkValue ())
        (self.eng.processInputCall input d self.interface).1 := rfl

theorem GetMathml_fst {σ : Type} (self : Interface σ) :
    self.GetMathml.1 =
      guardResult (fun v => Result.mkValue v)
        (self.eng.getMathmlCall self.interface).1 := rfl

theorem GetPurifiedTex_fst {σ : Type} (self : Interface σ) :
    self.GetPurifiedTex.1 =
      guardResult (fun v => Result.mkValue v)
        (self.eng.getPurifiedTexCall self.interface).1 := rfl

theorem GetPurifiedTexOnly_fst {σ : Type} (self : Interface σ) :
    self.GetPurifiedTexOnly.1 =
      guardResult (fun v => Result.mkValue v)
        (self.eng.getPurifiedTexOnlyCall self.interface).1 := rfl

theorem GetMathml_snd {σ : Type} (self : Interface σ) :
    self.GetMathml.2 =
      ⟨self.eng, (self.eng.getMathmlCall self.interface).2⟩ := rfl

theorem GetPurifiedTex_snd {σ : Type} (self : Interface σ) :
    self.GetPurifiedTex.2 =
      ⟨self.eng, (self.eng.getPurifiedTexCall self.interface).2⟩ := rfl

theorem GetPurifiedTexOnly_snd {σ : Type} (self : Interface σ) :
    self.GetPurifiedTexOnly.2 =
      ⟨self.eng, (self.eng.getPurifiedTexOnlyCall self.interface).2⟩ := rfl

/-! Claim theorems. -/

/-- C1: For each of the four facade operations and every failure the engine
call inside it raises, the failure is caught inside the operation and
surfaced to the caller only as the error alternative of the returned
`Result`; no invocation of a facade operation lets a raised exception
propagate past the operation boundary. -/
theorem C1_failures_never_escape {σ : Type} (self : Interface σ)
    (input : String) (displayStyle : Bool) :
    ((self.ProcessInput input displayStyle).1.escapes = false ∧
      ∀ r, (self.eng.processInputCall input displayStyle self.interface).1 =
          EngineOutcome.raise r →
        (self.ProcessInput input displayStyle).1.returnsErr = true) ∧
    (self.GetMathml.1.escapes = false ∧
      ∀ r, (self.eng.getMathmlCall self.interface).1 = EngineOutcome.raise r →
        self.GetMathml.1.returnsErr = true) ∧
    (self.GetPurifiedTex.1.escapes = false ∧
      ∀ r, (self.eng.getPurifiedTexCall self.interface).1 =
          EngineOutcome.raise r →
        self.GetPurifiedTex.1.returnsErr = true) ∧
    (self.GetPurifiedTexOnly.1.escapes = false ∧
      ∀ r, (self.eng.getPurifiedTexOnlyCall self.interface).1 =
          EngineOutcome.raise r →
        self.GetPurifiedTexOnly.1.returnsErr = true) := by
  refine ⟨⟨?_, ?_⟩, ⟨?_, ?_⟩, ⟨?_, ?_⟩, ⟨?_, ?_⟩⟩
  · rw [ProcessInput_fst]; exact guardResult_escapes_false _ _
  · intro r h; rw [ProcessInput_fst, h]; exact guardResult_raise_err _ r
  · rw [GetMathml_fst]; exact guardResult_escapes_false _ _
  · intro r h; rw [GetMathml_fst, h]; exact guardResult_raise_err _ r
  · rw [GetPurifiedTex_fst]; exact guardResult_escapes_false _ _
  · intro r h; rw [GetPurifiedTex_fst, h]; exact guardResult_raise_err _ r
  · rw [GetPurifiedTexOnly_fst]; exact guardResult_escapes_false _ _
  · intro r h; rw [GetPurifiedTexOnly_fst, h]; exact guardResult_raise_err _ r

/-- C1 evaluated at a concrete facade whose engine raises on every call. -/
theorem C1_failures_never_escape_witness :
    ((⟨derivedExcEngine, 0⟩ : Interface Nat).ProcessInput "q" true).1.escapes
        = false ∧
    ((⟨derivedExcEngine, 0⟩ : Interface Nat).ProcessInput "q" true).1.returnsErr
        = true ∧
    (⟨derivedExcEngine, 0⟩ : Interface Nat).GetMathml.1.escapes = false ∧
    (⟨derivedExcEngine, 0⟩ : Interface Nat).GetMathml.1.returnsErr = true ∧
    (⟨derivedExcEngine, 0⟩ : Interface Nat).GetPurifiedTex.1.escapes = false ∧
    (⟨derivedExcEngine, 0⟩ : Interface Nat).GetPurifiedTex.1.returnsErr = true ∧
    (⟨derivedExcEngine, 0⟩ : Interface Nat).GetPurifiedTexOnly.1.escapes
        = false ∧
    (⟨derivedExcEngine, 0⟩ : Interface Nat).GetPurifiedTexOnly.1.returnsErr
        = true := by
  have t := C1_failures_never_escape (⟨derivedExcEngine, 0⟩ : Interface Nat)
    "q" true
  exact ⟨t.1.1, t.1.2 (Raised.blahtexExc derivedExc) rfl,
    t.2.1.1, t.2.1.2 (Raised.blahtexExc derivedExc) rfl,
    t.2.2.1.1, t.2.2.1.2 (Raised.blahtexExc derivedExc) rfl,
    t.2.2.2.1, t.2.2.2.2 (Raised.blahtexExc derivedExc) rfl⟩

/-- C2: For every input string and displayStyle flag, `ProcessInput` returns
the Ok unit `Result` when the engine call succeeds, a Domain error carrying
the engine exception code and args when the engine raises its structured
exception, and a Generic error carrying the failure description on any
other failure. -/
theorem C2_ProcessInput_classification {σ : Type} (self : Interface σ)
    (input : String) (displayStyle : Bool) :
    (∀ u, (self.eng.processInputCall input displayStyle self.interface).1 =
        EngineOutcome.ok u →
      (self.ProcessInput input displayStyle).1 =
        OpResult.returned (Result.mkValue ())) ∧
    (∀ e, (self.eng.processInputCall input displayStyle self.interface).1 =
        EngineOutcome.raise (Raised.blahtexExc e) →
      (self.ProcessInput input displayStyle).1 =
        OpResult.returned (Result.mkException ⟨e.code, e.args⟩)) ∧
    (∀ s, (self.eng.processInputCall input displayStyle self.interface).1 =
        EngineOutcome.raise (Raised.stdExc s) →
      (self.ProcessInput input displayStyle).1 =
        OpResult.returned (Result.mkStandard ⟨s.what⟩)) := by
  refine ⟨fun u h => ?_, fun e h => ?_, fun s h => ?_⟩
  · rw [ProcessInput_fst, h, guardResult_ok]
  · rw [ProcessInput_fst, h, guardResult_blahtexExc]; rfl
  · rw [ProcessInput_fst, h, guardResult_stdExc]; rfl

/-- C2 evaluated on explicit inputs of the demo engine. -/
theorem C2_ProcessInput_classification_witness :
    ((Interface.fresh demoEngine).ProcessInput "x^2" false).1 =
      OpResult.returned (Result.mkValue ()) ∧
    ((Interface.fresh demoEngine).ProcessInput "y" false).1 =
      OpResult.returned (Result.mkException ⟨"UnknownCommand", ["y"]⟩) ∧
    ((Interface.fresh demoEngine).ProcessInput "oom" false).1 =
      OpResult.returned (Result.mkStandard ⟨"bad_alloc"⟩) :=
  ⟨(C2_ProcessInput_classification (Interface.fresh demoEngine) "x^2" false).1
      () (by decide),
   (C2_ProcessInput_classification (Interface.fresh demoEngine) "y" false).2.1
      ⟨"UnknownCommand", ["y"], false⟩ (by decide),
   (C2_ProcessInput_classification (Interface.fresh demoEngine) "oom" false).2.2
      ⟨"bad_alloc"⟩ (by decide)⟩

/-- C3 counterexample: extraction is one of the operations on a constructed
`Result`, and on this concrete error-holding `Result` the `value()` accessor
raises `std::bad_variant_access` — modelled by producing no value — instead
of returning; so it is false that no operation on a constructed `Result`
ever raises. -/
theorem C3_extraction_raises_on_err :
    (Result.mkStandard ⟨"boom"⟩ : Result Unit).value = none ∧
    (Result.mkStandard ⟨"boom"⟩ : Result Unit).isException = true := by
  decide

/-- C3 amended: construction and the discriminant queries never raise, and
extraction never raises when it targets the active alternative (it returns
the stored content); only extraction against the non-active alternative
raises, which is the fail-fast of the mismatch contract. -/
theorem C3_operations_raise_only_on_mismatch {T : Type} (r : Result T) :
    (r.isOK = true → (∃ v, r.value = some v) ∧ r.exception = none) ∧
    (r.isException = true → (∃ a, r.exception = some a) ∧ r.value = none) := by
  cases r with
  | ofValue v =>
    exact ⟨fun _ => ⟨⟨v, rfl⟩, rfl⟩, fun h => by simp [Result.isException] at h⟩
  | ofAny a =>
    exact ⟨fun h => by simp [Result.isOK] at h, fun _ => ⟨⟨a, rfl⟩, rfl⟩⟩

/-- C3 amended theorem evaluated at concrete values of both alternatives. -/
theorem C3_operations_raise_only_on_mismatch_witness :
    (Result.mkValue () : Result Unit).exception = none ∧
    (Result.mkStandard ⟨"w"⟩ : Result Unit).value = none :=
  ⟨((C3_operations_raise_only_on_mismatch (Result.mkValue ())).1 rfl).2,
   ((C3_operations_raise_only_on_mismatch (Result.mkStandard ⟨"w"⟩)).2 rfl).2⟩

/-- C4: a typed extraction accessor invoked against the non-active
alternative fails fast — it raises `std::bad_variant_access`, modelled by
producing no value — and never returns a default-constructed, null or
otherwise fabricated value; this holds for all four accessors
(`blahtexException`, `standardException`, `value`, `exception`). -/
theorem C4_mismatched_extraction_fails_fast {T : Type} (r : Result T)
    (a : AnyException) :
    (r.isOK = false → r.value = none) ∧
    (r.isException = false → r.exception = none) ∧
    (a.isBlahtexException = false → a.blahtexException = none) ∧
    (a.isStandardException = false → a.standardException = none) := by
  refine ⟨fun h => ?_, fun h => ?_, fun h => ?_, fun h => ?_⟩
  · cases r with
    | ofValue v => simp [Result.isOK] at h
    | ofAny x => rfl
  · cases r with
    | ofValue v => rfl
    | ofAny x => simp [Result.isException] at h
  · cases a with
    | ofBlahtex e => simp [AnyException.isBlahtexException] at h
    | ofStandard s => rfl
  · cases a with
    | ofBlahtex e => rfl
    | ofStandard s => simp [AnyException.isStandardException] at h

/-- C4 evaluated at concrete mismatched extractions. -/
theorem C4_mismatched_extraction_fails_fast_witness :
    (Result.mkStandard ⟨"x"⟩ : Result Unit).value = none ∧
    (Result.mkValue () : Result Unit).exception = none ∧
    (AnyException.ofStandard ⟨"x"⟩).blahtexException = none ∧
    (AnyException.ofBlahtex ⟨"c", []⟩).standardException = none :=
  ⟨(C4_mismatched_extraction_fails_fast (Result.mkStandard ⟨"x"⟩ : Result Unit)
      (AnyException.ofStandard ⟨"x"⟩)).1 rfl,
   (C4_mismatched_extraction_fails_fast (Result.mkValue () : Result Unit)
      (AnyException.ofStandard ⟨"x"⟩)).2.1 rfl,
   (C4_mismatched_extraction_fails_fast (Result.mkValue () : Result Unit)
      (AnyException.ofStandard ⟨"x"⟩)).2.2.1 rfl,
   (C4_mismatched_extraction_fails_fast (Result.mkValue () : Result Unit)
      (AnyException.ofBlahtex ⟨"c", []⟩)).2.2.2 rfl⟩

/-- C5: every constructed `Result` has exactly one of the two discriminants
true and every constructed `AnyException` has exactly one of its two
discriminants true; both values are immutable after construction — the
queries are pure functions of the constructed value, so repeated queries
return the same answers. -/
theorem C5_exactly_one_discriminant {T : Type} (r : Result T)
    (a : AnyException) :
    ((r.isOK = true ∧ r.isException = false) ∨
      (r.isOK = false ∧ r.isException = true)) ∧
    ((a.isBlahtexException = true ∧ a.isStandardException = false) ∨
      (a.isBlahtexException = false ∧ a.isStandardException = true)) := by
  constructor
  · cases r with
    | ofValue v => exact Or.inl ⟨rfl, rfl⟩
    | ofAny x => exact Or.inr ⟨rfl, rfl⟩
  · cases a with
    | ofBlahtex e => exact Or.inl ⟨rfl, rfl⟩
    | ofStandard s => exact Or.inr ⟨rfl, rfl⟩

/-- C6: the Domain envelope built at the catch site from a structured engine
failure preserves the failure code exactly and the args sequence with the
same elements in the same order and count, each field copied by value into
the envelope own fields; the facade operation that catches the failure
returns exactly that envelope. -/
theorem C6_domain_envelope_preserves_fields {σ : Type} (self : Interface σ)
    (input : String) (displayStyle : Bool) (e : BlahtexException) :
    (Exception.ofBlahtexExc e).GetCode = e.GetCode ∧
    (Exception.ofBlahtexExc e).GetArgs = e.GetArgs ∧
    ((Exception.ofBlahtexExc e).GetArgs).length = (e.GetArgs).length ∧
    (∀ i : Nat, ((Exception.ofBlahtexExc e).GetArgs)[i]? = (e.GetArgs)[i]?) ∧
    ((self.eng.processInputCall input displayStyle self.interface).1 =
        EngineOutcome.raise (Raised.blahtexExc e) →
      (self.ProcessInput input displayStyle).1 =
        OpResult.returned (Result.mkException (Exception.ofBlahtexExc e))) := by
  refine ⟨rfl, rfl, rfl, fun i => rfl, fun h => ?_⟩
  rw [ProcessInput_fst, h, guardResult_blahtexExc]

/-- C6 evaluated at the concrete structured exception `derivedExc`. -/
theorem C6_domain_envelope_preserves_fields_witness :
    (Exception.ofBlahtexExc derivedExc).GetCode = "DerivedCode" ∧
    (Exception.ofBlahtexExc derivedExc).GetArgs = ["a", "b"] ∧
    ((⟨derivedExcEngine, 0⟩ : Interface Nat).ProcessInput "q" false).1 =
      OpResult.returned
        (Result.mkException (Exception.ofBlahtexExc derivedExc)) := by
  have t := C6_domain_envelope_preserves_fields
    (⟨derivedExcEngine, 0⟩ : Interface Nat) "q" false derivedExc
  exact ⟨t.1.trans rfl, t.2.1.trans rfl, t.2.2.2.2 rfl⟩

/-- C7 counterexample: the generic error message crosses the boundary as the
single-byte `std::string` field `StandardException::message`, copied from
`what()`, so it is false that every textual value crossing the boundary is
represented as a wide-character string type. -/
theorem C7_generic_message_narrow :
    boundaryTextWidth BoundaryText.genericMessage = CharWidth.narrow ∧
    boundaryTextWidth BoundaryText.genericMessage ≠ CharWidth.wide := by
  decide

/-- C7 amended: every textual value crossing the boundary except the generic
error message is a wide-character string; the generic error message alone is
a single-byte string, copied from the narrow description of the generic
failure. -/
theorem C7_boundary_text_wide_except_generic (t : BoundaryText) :
    (t ≠ BoundaryText.genericMessage → boundaryTextWidth t = CharWidth.wide) ∧
    boundaryTextWidth BoundaryText.genericMessage = CharWidth.narrow := by
  cases t <;> exact ⟨fun h => by first | rfl | exact absurd rfl h, rfl⟩

/-- C7 amended theorem evaluated at the domain code field. -/
theorem C7_boundary_text_wide_except_generic_witness :
    boundaryTextWidth BoundaryText.domainCode = CharWidth.wide :=
  (C7_boundary_text_wide_except_generic BoundaryText.domainCode).1 (by decide)

/-- C8: with the spec-modelled engine guarantee that extraction on a freshly
constructed engine reports a failure, calling `GetMathml` on a freshly
constructed facade, before any `ProcessInput`, returns a `Result` holding an
error of either kind: the invocation never lets an exception escape and
never returns the Ok alternative. -/
theorem C8_fresh_GetMathml_errs {σ : Type} (eng : EngineSpec σ)
    (hfresh : eng.FreshGetMathmlRaises) :
    (Interface.fresh eng).GetMathml.1.escapes = false ∧
    (Interface.fresh eng).GetMathml.1.returnsErr = true ∧
    (Interface.fresh eng).GetMathml.1.returnsOk = false := by
  obtain ⟨r, hr⟩ := hfresh
  have h1 : (Interface.fresh eng).GetMathml.1 =
      guardResult (fun v => Result.mkValue v) (EngineOutcome.raise r) := by
    rw [GetMathml_fst]
    show guardResult _ (eng.getMathmlCall eng.init).1 = _
    rw [hr]
  rw [h1]
  exact ⟨guardResult_escapes_false _ _, guardResult_raise_err _ r,
    guardResult_raise_not_ok _ r⟩

/-- C8 evaluated at the concrete demo engine, whose fresh extraction
raises. -/
theorem C8_fresh_GetMathml_errs_witness :
    (Interface.fresh demoEngine).GetMathml.1.escapes = false ∧
    (Interface.fresh demoEngine).GetMathml.1.returnsErr = true ∧
    (Interface.fresh demoEngine).GetMathml.1.returnsOk = false :=
  C8_fresh_GetMathml_errs demoEngine
    ⟨Raised.blahtexExc ⟨"NoInputProcessed", [], false⟩, by decide⟩

/-- C9: with the spec-modelled read-only engine extraction, calling the same
extraction operation twice in succession on an unchanged facade yields two
`Result` values with the same discriminant and payloads equal field by
field — the second invocation, on the facade returned by the first, produces
the same outcome as the first — for each of the three extraction
operations. -/
theorem C9_extraction_idempotent {σ : Type} (self : Interface σ)
    (hro : self.eng.ExtractionsReadOnly) :
    self.GetMathml.2.GetMathml.1 = self.GetMathml.1 ∧
    self.GetPurifiedTex.2.GetPurifiedTex.1 = self.GetPurifiedTex.1 ∧
    self.GetPurifiedTexOnly.2.GetPurifiedTexOnly.1 =
      self.GetPurifiedTexOnly.1 := by
  obtain ⟨h1, h2, h3⟩ := hro
  refine ⟨?_, ?_, ?_⟩
  · have hst : self.GetMathml.2 = self := by rw [GetMathml_snd, h1]
    rw [hst]
  · have hst : self.GetPurifiedTex.2 = self := by rw [GetPurifiedTex_snd, h2]
    rw [hst]
  · have hst : self.GetPurifiedTexOnly.2 = self := by
      rw [GetPurifiedTexOnly_snd, h3]
    rw [hst]

/-- C9 evaluated at a concrete facade over the demo engine. -/
theorem C9_extraction_idempotent_witness :
    (⟨demoEngine, 5⟩ : Interface Nat).GetMathml.2.GetMathml.1 =
      (⟨demoEngine, 5⟩ : Interface Nat).GetMathml.1 ∧
    (⟨demoEngine, 5⟩ : Interface Nat).GetPurifiedTex.2.GetPurifiedTex.1 =
      (⟨demoEngine, 5⟩ : Interface Nat).GetPurifiedTex.1 ∧
    (⟨demoEngine, 5⟩ : Interface Nat).GetPurifiedTexOnly.2.GetPurifiedTexOnly.1
      = (⟨demoEngine, 5⟩ : Interface Nat).GetPurifiedTexOnly.1 :=
  C9_extraction_idempotent (⟨demoEngine, 5⟩ : Interface Nat)
    ⟨fun _ => rfl, fun _ => rfl, fun _ => rfl⟩

/-- C10: each facade operation writes the structured-exception catch clause
before the generic one and clauses are tried in order, so a raised failure
that is a structured engine exception is always handled by the Domain clause
and never by the Generic one — even when, as hypothesised here, its type
would also match the generic clause — and every facade operation then
returns the Domain error. -/
theorem C10_blahtex_clause_tried_first {σ : Type} (self : Interface σ)
    (input : String) (displayStyle : Bool) (e : BlahtexException)
    (_halso : Raised.matchesStdHandler (Raised.blahtexExc e) = true) :
    dispatchCatch (Raised.blahtexExc e) = some (Caught.byBlahtexClause e) ∧
    (∀ s, dispatchCatch (Raised.blahtexExc e) ≠ some (Caught.byStdClause s)) ∧
    ((self.eng.processInputCall input displayStyle self.interface).1 =
        EngineOutcome.raise (Raised.blahtexExc e) →
      (self.ProcessInput input displayStyle).1 =
        OpResult.returned (Result.mkException (Exception.ofBlahtexExc e))) ∧
    ((self.eng.getMathmlCall self.interface).1 =
        EngineOutcome.raise (Raised.blahtexExc e) →
      self.GetMathml.1 =
        OpResult.returned (Result.mkException (Exception.ofBlahtexExc e))) ∧
    ((self.eng.getPurifiedTexCall self.interface).1 =
        EngineOutcome.raise (Raised.blahtexExc e) →
      self.GetPurifiedTex.1 =
        OpResult.returned (Result.mkException (Exception.ofBlahtexExc e))) ∧
    ((self.eng.getPurifiedTexOnlyCall self.interface).1 =
        EngineOutcome.raise (Raised.blahtexExc e) →
      self.GetPurifiedTexOnly.1 =
        OpResult.returned (Result.mkException (Exception.ofBlahtexExc e))) := by
  refine ⟨dispatchCatch_blahtexExc e, ?_, fun h => ?_, fun h => ?_,
    fun h => ?_, fun h => ?_⟩
  · intro s hcontra
    rw [dispatchCatch_blahtexExc] at hcontra
    simp at hcontra
  · rw [ProcessInput_fst, h, guardResult_blahtexExc]
  · rw [GetMathml_fst, h, guardResult_blahtexExc]
  · rw [GetPurifiedTex_fst, h, guardResult_blahtexExc]
  · rw [GetPurifiedTexOnly_fst, h, guardResult_blahtexExc]

/-- C10 evaluated at `derivedExc`, whose type also matches the generic
clause, on a facade whose engine raises it on every call. -/
theorem C10_blahtex_clause_tried_first_witness :
    dispatchCatch (Raised.blahtexExc derivedExc) =
      some (Caught.byBlahtexClause derivedExc) ∧
    dispatchCatch (Raised.blahtexExc derivedExc) ≠
      some (Caught.byStdClause ⟨"x"⟩) ∧
    ((⟨derivedExcEngine, 0⟩ : Interface Nat).ProcessInput "q" false).1 =
      OpResult.returned
        (Result.mkException (Exception.ofBlahtexExc derivedExc)) ∧
    (⟨derivedExcEngine, 0⟩ : Interface Nat).GetMathml.1 =
      OpResult.returned
        (Result.mkException (Exception.ofBlahtexExc derivedExc)) ∧
    (⟨derivedExcEngine, 0⟩ : Interface Nat).GetPurifiedTex.1 =
      OpResult.returned
        (Result.mkException (Exception.ofBlahtexExc derivedExc)) ∧
    (⟨derivedExcEngine, 0⟩ : Interface Nat).GetPurifiedTexOnly.1 =
      OpResult.returned
        (Result.mkException (Exception.ofBlahtexExc derivedExc)) := by
  have t := C10_blahtex_clause_tried_first
    (⟨derivedExcEngine, 0⟩ : Interface Nat) "q" false derivedExc rfl
  exact ⟨t.1, t.2.1 ⟨"x"⟩, t.2.2.1 rfl, t.2.2.2.1 rfl, t.2.2.2.2.1 rfl,
    t.2.2.2.2.2 rfl⟩

end blahtexwrapper
